import Mathlib

/-!
Verification of the two WLED usermods of this repository against their
natural-language specification.

The development is a shallow embedding of the two C++ source files:

* `src/usermods/Power_Management/Power_Management.cpp`
  (class `PowerManagementUsermod`), embedded below as `PMState` together
  with `checkInputPin`, `checkBatteryVoltage`, `updateKeepAliveTimer` and
  the body of `loop()` (`loopTick`).  Time is monotone milliseconds
  (`Nat`); pin levels are `Bool` with `true = HIGH`, `false = LOW`;
  the C++ `float` arithmetic of the battery conversion is embedded as
  exact rational arithmetic over `ℚ`.

* the LED Controller usermod (class `LEDControllerUsermod`), embedded as
  `LEDState` with `handleButtonPress`, the brightness-selection sub-loop
  modelled as the events `brightQuick`/`brightLong`, the JSON state hook
  `readFromJsonState`, the raw `handleButton` debounce routine (with both
  the class-level statics and the function-local statics that shadow them kept as
  separate record fields), and the `RandomBlink` re-roll loop.

Blocking loops are modelled as step relations driven by further events;
the `random(n)` source is modelled as an explicit stream of draws.
-/

/-! ## Power Management usermod: constants (Power_Management.cpp lines 31-50) -/

/-- Maximum value for the 12-bit ADC (`ADC_MAX_VALUE`). -/
def ADC_MAX_VALUE : ℚ := 4095

/-- Reference voltage for the ADC (`ADC_REF_VOLTAGE`, 3.3 V). -/
def ADC_REF_VOLTAGE : ℚ := 33 / 10

/-- Measured value of R1 (`ACTUAL_R1`, 20000.0). -/
def ACTUAL_R1 : ℚ := 20000

/-- Measured value of R2 (`ACTUAL_R2`, 10000.0). -/
def ACTUAL_R2 : ℚ := 10000

/-- Voltage divider factor, `VOLTAGE_DIVIDER_RATIO = R1 / (R1 + R2)` in the
source (the name is shortened here). -/
def VOLTAGE_DIVIDER : ℚ := ACTUAL_R1 / (ACTUAL_R1 + ACTUAL_R2)

/-- Calibration slope (`CALIBRATION_SLOPE`, 0.878). -/
def CALIBRATION_SLOPE : ℚ := 878 / 1000

/-- Calibration intercept (`CALIBRATION_INTERCEPT`, -0.010). -/
def CALIBRATION_INTERCEPT : ℚ := -(10 / 1000)

/-- Voltage threshold for low-battery shutdown (`LOW_BATTERY_THRESHOLD`, 3.2 V). -/
def LOW_BATTERY_THRESHOLD : ℚ := 32 / 10

/-- Keep-alive timeout in milliseconds (`KEEP_ALIVE_TIMEOUT`, 360000). -/
def KEEP_ALIVE_TIMEOUT : Nat := 360000

/-- Input pin poll interval in ms (`inputCheckInterval`, 100). -/
def inputCheckInterval : Nat := 100

/-- Hold time on the input pin that triggers shutdown (`shutdownDelay`, 5000 ms). -/
def shutdownDelay : Nat := 5000

/-- Battery poll interval in ms (`batteryCheckInterval`, 10000). -/
def batteryCheckInterval : Nat := 10000

/-! ## Power Management usermod: state and operations -/

/-- Mutable state of `PowerManagementUsermod`: the timing variables, the
state-tracking fields, and the two GPIO output levels it drives
(`true = HIGH`).  Field names follow the source. -/
structure PMState where
  lastActivityTime : Nat
  lastInputCheck : Nat
  lastBatteryCheck : Nat
  lastInputState : Bool
  inputLowStartTime : Nat
  shutdownTriggered : Bool
  lowBatteryShutdown : Bool
  outputPin : Bool
  keepAlivePin : Bool
  currentBatteryVoltage : ℚ
  deriving Repr, DecidableEq

/-- State established by `setup()` at boot time 0: both outputs HIGH,
`lastActivityTime = millis() = 0`, remaining fields at their member
initializers. -/
def setupState : PMState :=
  { lastActivityTime := 0
    lastInputCheck := 0
    lastBatteryCheck := 0
    lastInputState := true
    inputLowStartTime := 0
    shutdownTriggered := false
    lowBatteryShutdown := false
    outputPin := true
    keepAlivePin := true
    currentBatteryVoltage := 0 }

/-- One call of `PowerManagementUsermod::checkInputPin` with the delivered
reading `currentInputState` at time `now` (lines 157-187): falling edge
starts the timer, a LOW reading held for `shutdownDelay` triggers shutdown,
a rising edge resets the timer and both outputs. -/
def checkInputPin (currentInputState : Bool) (now : Nat) (s : PMState) : PMState :=
  let s1 := if currentInputState = false ∧ s.lastInputState = true then
      { s with inputLowStartTime := now } else s
  let s2 := if currentInputState = false ∧ s1.shutdownTriggered = false ∧
      shutdownDelay ≤ now - s1.inputLowStartTime then
      { s1 with shutdownTriggered := true, outputPin := false, keepAlivePin := false }
    else s1
  let s3 := if currentInputState = true ∧ s2.lastInputState = false then
      { s2 with inputLowStartTime := 0, shutdownTriggered := false,
                outputPin := true, keepAlivePin := true }
    else s2
  { s3 with lastInputState := currentInputState }

/-- Voltage seen at the ADC pin for a raw reading (`voltageAtPin`, line 194). -/
def voltageAtPin (adcValue : Nat) : ℚ := ((adcValue : ℚ) / ADC_MAX_VALUE) * ADC_REF_VOLTAGE

/-- Battery voltage after undoing the divider (`batteryVoltage`, line 195). -/
def batteryVoltage (adcValue : Nat) : ℚ := voltageAtPin adcValue / VOLTAGE_DIVIDER

/-- Affine-calibrated battery voltage (`calibratedVoltage`, line 196). -/
def calibratedVoltage (adcValue : Nat) : ℚ :=
  CALIBRATION_SLOPE * batteryVoltage adcValue + CALIBRATION_INTERCEPT

/-- One call of `PowerManagementUsermod::checkBatteryVoltage` with the raw
ADC reading `adcValue` (lines 192-218): update the stored voltage and, when
the calibrated value is at most the threshold and the latch is not yet set,
latch `lowBatteryShutdown` and drive both outputs LOW. -/
def checkBatteryVoltage (adcValue : Nat) (s : PMState) : PMState :=
  let s1 := { s with currentBatteryVoltage := calibratedVoltage adcValue }
  if calibratedVoltage adcValue ≤ LOW_BATTERY_THRESHOLD ∧ s1.lowBatteryShutdown = false then
    { s1 with lowBatteryShutdown := true, outputPin := false, keepAlivePin := false }
  else s1

/-- `PowerManagementUsermod::updateKeepAliveTimer` (lines 223-225). -/
def updateKeepAliveTimer (now : Nat) (s : PMState) : PMState :=
  { s with lastActivityTime := now }

/-- One execution of the body of `PowerManagementUsermod::loop()` (lines
128-152) at time `now`, with the input pin at level `pin` and the ADC
reading `adc`: the two rate-limited checks followed by the keep-alive
timeout check, which drives both outputs LOW and sets `shutdownTriggered`. -/
def loopTick (now : Nat) (pin : Bool) (adc : Nat) (s : PMState) : PMState :=
  let s1 := if inputCheckInterval < now - s.lastInputCheck then
      { checkInputPin pin now s with lastInputCheck := now } else s
  let s2 := if batteryCheckInterval < now - s1.lastBatteryCheck then
      { checkBatteryVoltage adc s1 with lastBatteryCheck := now } else s1
  if KEEP_ALIVE_TIMEOUT ≤ now - s2.lastActivityTime then
    { s2 with keepAlivePin := false, outputPin := false, shutdownTriggered := true }
  else s2

/-- An externally visible event of the Power Management module: one loop
tick (carrying its time and the two peripheral readings), or one call of
`updateKeepAliveTimer`. -/
inductive PMEvent where
  | tick (now : Nat) (pin : Bool) (adc : Nat)
  | activity (now : Nat)
  deriving Repr, DecidableEq

/-- Effect of one event on the module state. -/
def stepEvent : PMEvent → PMState → PMState
  | PMEvent.tick now pin adc, s => loopTick now pin adc s
  | PMEvent.activity now, s => updateKeepAliveTimer now s

/-- A run of the module: the events applied in order. -/
def runEvents (es : List PMEvent) (s : PMState) : PMState :=
  es.foldl (fun s e => stepEvent e s) s

/-- Time stamp of an event. -/
def eventTime : PMEvent → Nat
  | PMEvent.tick now _ _ => now
  | PMEvent.activity now => now

/-- Event times are nondecreasing and bounded below by `t0` (millis() is
monotone). -/
def chronoFrom : Nat → List PMEvent → Prop
  | _, [] => True
  | t0, e :: es => t0 ≤ eventTime e ∧ chronoFrom (eventTime e) es

/-- All event times stay below the keep-alive timeout. -/
def timesBelow (es : List PMEvent) : Prop :=
  ∀ e ∈ es, eventTime e < KEEP_ALIVE_TIMEOUT

/-- The input-pin readings a run delivers to `checkInputPin`, i.e. the
readings of exactly those ticks on which the 100 ms gate in `loop()` opens,
with their times. -/
def deliveredEv : List PMEvent → PMState → List (Nat × Bool)
  | [], _ => []
  | PMEvent.tick now pin adc :: es, s =>
      (if inputCheckInterval < now - s.lastInputCheck then [(now, pin)] else []) ++
        deliveredEv es (stepEvent (PMEvent.tick now pin adc) s)
  | PMEvent.activity now :: es, s => deliveredEv es (stepEvent (PMEvent.activity now) s)

/-! ## The specification's view of a reading history

`h` is a list of delivered `(time, level)` readings, oldest first. -/

/-- Level of the most recent delivered reading; HIGH before any reading
(the pin has a pull-up and `lastInputState` starts HIGH). -/
def lastLevel (h : List (Nat × Bool)) : Bool :=
  match h.reverse with
  | [] => true
  | p :: _ => p.2

/-- The maximal run of LOW readings at the end of the history, most recent
first: the readings since the last rising edge. -/
def lowRun (h : List (Nat × Bool)) : List (Nat × Bool) :=
  h.reverse.takeWhile (fun p => !p.2)

/-- Time of the first reading of the terminal LOW run (the falling edge). -/
def lowStartTime (h : List (Nat × Bool)) : Nat :=
  match lowRun h with
  | [] => 0
  | p :: rest => (rest.getLastD p).1

/-- The specification's trigger condition on a reading history: the pin has
been continuously LOW since a falling edge at least `shutdownDelay`
milliseconds ago (as witnessed by the delivered readings). -/
def lowHold (h : List (Nat × Bool)) : Bool :=
  match lowRun h with
  | [] => false
  | p :: rest => decide ((rest.getLastD p).1 + shutdownDelay ≤ p.1)

/-- Time of the most recent delivered reading (0 if none). -/
def lastTime (h : List (Nat × Bool)) : Nat :=
  match h.reverse with
  | [] => 0
  | p :: _ => p.1

/-- Claim C1 exactly as the spec states it, for a given run: the final
`shutdownTriggered` is true iff the delivered input readings show the pin
continuously LOW for at least `shutdownDelay` ms since the last rising
edge. -/
def specC1 (es : List PMEvent) : Prop :=
  (runEvents es setupState).shutdownTriggered = true ↔
    lowHold (deliveredEv es setupState) = true

/-! ## LED Controller usermod: constants (part_000 lines 188-210, 220-232)

The three enums are embedded by their underlying C++ values. -/

/-- Maximum duration of a quick press (`QUICK_PRESS_TIME`, 500 ms). -/
def QUICK_PRESS_TIME : Nat := 500

/-- Threshold for a long press (`LONG_PRESS_TIME`, 1000 ms). -/
def LONG_PRESS_TIME : Nat := 1000

/-- Threshold for entering sleep mode (`SLEEP_PRESS_TIME`, 3000 ms). -/
def SLEEP_PRESS_TIME : Nat := 3000

/-- Enumerator `Mode::COLOR_SELECT`. -/
def COLOR_SELECT : Nat := 0

/-- Enumerator `Mode::PATTERN_SELECT`. -/
def PATTERN_SELECT : Nat := 1

/-- Enumerator `Mode::BRIGHTNESS_SELECT`. -/
def BRIGHTNESS_SELECT : Nat := 2

/-- Enumerator `Colors::WHITE` (the first of the ten cycling colors). -/
def WHITE : Nat := 0

/-- Enumerator `Colors::COLOR_COUNT`: the number of cycling colors
(WHITE..RAINBOW are values 0..9). -/
def COLOR_COUNT : Nat := 10

/-- Enumerator `Colors::WLED_MODE`, declared after `COLOR_COUNT`, so its
underlying value is 11. -/
def WLED_MODE : Nat := 11

/-- Enumerator `Patterns::UNIFORM_BLINK`. -/
def UNIFORM_BLINK : Nat := 0

/-- Enumerator `Patterns::PATTERN_COUNT` (7 patterns, values 0..6). -/
def PATTERN_COUNT : Nat := 7

/-! ## LED Controller usermod: state -/

/-- Mutable state of `LEDControllerUsermod` relevant to mode/color/pattern
control.  `currentMode`, `currentColor` and `currentPattern` carry the
underlying enum values (JSON input can store any integer in them).  Field
names follow the source. -/
structure LEDState where
  currentMode : Nat
  currentColor : Nat
  currentPattern : Nat
  isActive : Bool
  isFlashingOrange : Bool
  inBrightnessSelection : Bool
  wledControlEnabled : Bool
  lastMode : Nat
  lastColor : Nat
  lastPattern : Nat
  maxBrightness : Nat
  currentBrightnessLevel : Nat
  buttonPressStart : Nat
  position : Nat
  lastPatternUpdate : Nat
  deriving Repr, DecidableEq

/-- The member-initializer state of `LEDControllerUsermod` (with
`isActive = false` as re-established by `setup()`). -/
def initLEDState : LEDState :=
  { currentMode := COLOR_SELECT
    currentColor := WHITE
    currentPattern := UNIFORM_BLINK
    isActive := false
    isFlashingOrange := false
    inBrightnessSelection := false
    wledControlEnabled := false
    lastMode := COLOR_SELECT
    lastColor := WHITE
    lastPattern := UNIFORM_BLINK
    maxBrightness := 128
    currentBrightnessLevel := 1
    buttonPressStart := 0
    position := 0
    lastPatternUpdate := 0 }

/-- The quick-press color advance of `handleButtonPress` (line 676):
`currentColor = (currentColor + 1) % COLOR_COUNT`. -/
def colorAdvance (c : Nat) : Nat := (c + 1) % COLOR_COUNT

/-- Brightness value of a brightness level (`cycleBrightness`, lines
1068-1087: `BRIGHTNESS_25/50/75/100` = 64/128/192/255). -/
def brightnessOfLevel : Nat → Nat
  | 0 => 64
  | 1 => 128
  | 2 => 192
  | _ => 255

/-- `LEDControllerUsermod::cycleBrightness` (lines 1068-1087). -/
def cycleBrightness (s : LEDState) : LEDState :=
  let l := (s.currentBrightnessLevel + 1) % 4
  { s with currentBrightnessLevel := l, maxBrightness := brightnessOfLevel l }

/-- Entry into brightness selection: the first statement of
`enterBrightnessSelection` (line 749) sets the flag; the blocking wait loop
it then runs is modelled by the events `brightQuick`/`brightLong` below. -/
def enterBrightnessSelection (s : LEDState) : LEDState :=
  { s with inBrightnessSelection := true }

/-- The sleep transition shared by the hold branch of `handleButton`
(lines 622-632) and the `duration >= SLEEP_PRESS_TIME` branch of
`handleButtonPress` (lines 732-741): deactivate and snapshot the current
mode/color/pattern into the `last*` fields. -/
def sleepTransition (s : LEDState) : LEDState :=
  { s with isActive := false, lastMode := s.currentMode,
           lastColor := s.currentColor, lastPattern := s.currentPattern }

/-- `LEDControllerUsermod::handleButtonPress` (lines 656-745), dispatching
on the press `duration`.  The early `return` in the `WLED_MODE` branch
(line 683) skips the final `buttonPressStart = 0`, as in the source. -/
def handleButtonPress (duration : Nat) (s : LEDState) : LEDState :=
  if s.isActive = false then
    if duration < QUICK_PRESS_TIME then
      { s with isActive := true, currentMode := s.lastMode,
               currentColor := s.lastColor, currentPattern := s.lastPattern,
               buttonPressStart := 0 }
    else if LONG_PRESS_TIME ≤ duration then
      { enterBrightnessSelection s with buttonPressStart := 0 }
    else
      { s with buttonPressStart := 0 }
  else
    if duration < QUICK_PRESS_TIME then
      if s.currentMode = COLOR_SELECT then
        let c := colorAdvance s.currentColor
        let s1 := { s with currentColor := c }
        if c = WLED_MODE ∧ s.wledControlEnabled = false then
          { s1 with wledControlEnabled := true }
        else
          let s2 := if (s.lastColor = WLED_MODE ∧ s.wledControlEnabled = true) ∨
              (c ≠ WLED_MODE ∧ s.wledControlEnabled = true) then
              { s1 with wledControlEnabled := false } else s1
          { s2 with buttonPressStart := 0 }
      else if s.currentMode = PATTERN_SELECT then
        let s1 := { s with currentPattern := (s.currentPattern + 1) % PATTERN_COUNT,
                           position := 0, lastPatternUpdate := 0 }
        let s2 := if s1.wledControlEnabled = true then
            { s1 with wledControlEnabled := false } else s1
        { s2 with buttonPressStart := 0 }
      else
        { s with buttonPressStart := 0 }
    else if LONG_PRESS_TIME ≤ duration ∧ duration < SLEEP_PRESS_TIME then
      if s.currentMode = COLOR_SELECT then
        let s1 := { s with currentMode := PATTERN_SELECT,
                           currentPattern := UNIFORM_BLINK,
                           position := 0, lastPatternUpdate := 0 }
        let s2 := if s1.wledControlEnabled = true then
            { s1 with wledControlEnabled := false } else s1
        { s2 with buttonPressStart := 0 }
      else if s.currentMode = PATTERN_SELECT then
        let s1 := { s with currentMode := COLOR_SELECT }
        let s2 := if s1.wledControlEnabled = true ∧ s1.currentColor ≠ WLED_MODE then
            { s1 with wledControlEnabled := false } else s1
        { s2 with buttonPressStart := 0 }
      else
        { s with buttonPressStart := 0 }
    else if SLEEP_PRESS_TIME ≤ duration then
      { sleepTransition s with buttonPressStart := 0 }
    else
      { s with buttonPressStart := 0 }

/-- `LEDControllerUsermod::readFromJsonState` (lines 402-416) restricted to
the state fields of the embedding: each present JSON field overwrites the
corresponding member. -/
def readFromJsonState (m c p : Option Nat) (act : Option Bool) (b : Option Nat)
    (s : LEDState) : LEDState :=
  { s with currentMode := m.getD s.currentMode,
           currentColor := c.getD s.currentColor,
           currentPattern := p.getD s.currentPattern,
           isActive := act.getD s.isActive,
           maxBrightness := b.getD s.maxBrightness }

/-- Events of the LED Controller state machine: a classified button release
of a given duration (`handleButtonPress`), the sleep transition taken while
the button is still held (`handleButton`, lines 622-632), a quick or a long
press inside the brightness-selection sub-loop (lines 767-796), and one
JSON state update. -/
inductive LEDEvent where
  | press (duration : Nat)
  | sleepHoldEv
  | brightQuick
  | brightLong
  | json (m c p : Option Nat) (act : Option Bool) (b : Option Nat)
  deriving Repr, DecidableEq

/-- Effect of one LED Controller event. The brightness sub-loop events only
act inside brightness selection; `brightLong` is its exit branch (lines
787-794), which reactivates and restores the `last*` snapshot. -/
def ledStep : LEDEvent → LEDState → LEDState
  | LEDEvent.press d, s => handleButtonPress d s
  | LEDEvent.sleepHoldEv, s => sleepTransition s
  | LEDEvent.brightQuick, s =>
      if s.inBrightnessSelection = true then cycleBrightness s else s
  | LEDEvent.brightLong, s =>
      if s.inBrightnessSelection = true then
        { s with inBrightnessSelection := false, isActive := true,
                 currentMode := s.lastMode, currentColor := s.lastColor,
                 currentPattern := s.lastPattern }
      else s
  | LEDEvent.json m c p act b, s => readFromJsonState m c p act b s

/-- A run of the LED Controller: the events applied in order. -/
def ledRun (es : List LEDEvent) (s : LEDState) : LEDState :=
  es.foldl (fun s e => ledStep e s) s

/-- An event coming from the button alone (not from the JSON API). -/
def isButtonEvent : LEDEvent → Bool
  | LEDEvent.json _ _ _ _ _ => false
  | _ => true

/-- The events, and states, at which the source writes the `last*` fields:
the two sleep transitions (an active release held past `SLEEP_PRESS_TIME`,
or the hold branch of `handleButton`). -/
def isSleepWrite : LEDEvent → LEDState → Bool
  | LEDEvent.press d, s => s.isActive && decide (SLEEP_PRESS_TIME ≤ d)
  | LEDEvent.sleepHoldEv, _ => true
  | _, _ => false

/-- The events, and states, at which the source reads the `last*` fields to
restore them: a quick press while inactive (wake, lines 659-666) and the
long-press exit of brightness selection (lines 787-794). -/
def isWakeRead : LEDEvent → LEDState → Bool
  | LEDEvent.press d, s => !s.isActive && decide (d < QUICK_PRESS_TIME)
  | LEDEvent.brightLong, s => s.inBrightnessSelection
  | _, _ => false

/-- Erase the `last*` snapshot fields (used to state that an operation
neither reads nor writes them). -/
def eraseLast (s : LEDState) : LEDState :=
  { s with lastMode := 0, lastColor := 0, lastPattern := 0 }

/-! ## The `RandomBlink` re-roll loop and the raw `handleButton` routine -/

/-- The do-while loop of `updateRandomBlink` (lines 948-951):
`draws` is the stream of values returned by successive `random(n)` calls,
`last` is `lastRandomLed` (−1 before the first update); starting at draw
index `k` with `fuel` remaining loop iterations, return the first draw that
differs from `last`. -/
def randomRoll (draws : Nat → Nat) (last : Int) : Nat → Nat → Option Nat
  | _, 0 => none
  | k, fuel + 1 =>
      if (draws k : Int) = last then randomRoll draws last (k + 1) fuel
      else some (draws k)

/-- Debounce-stable window. `DEBOUNCE_TIME` is defined by the host
(`wled.h`), not in this repository; the specification gives its default of
50 ms. -/
def DEBOUNCE_TIME : Nat := 50

/-- Combined state for the raw `handleButton` routine: the four class-level
static members (`buttonWasPressed`, `lastDebounceTime`, `lastButtonState`,
`sleepTriggered`, lines 277-280 and 1210-1213) and the four function-local
statics of the same names declared inside `handleButton` (lines 596-599),
which shadow them, plus the instance state. -/
structure HBState where
  buttonWasPressed : Bool
  lastDebounceTime : Nat
  lastButtonState : Bool
  sleepTriggered : Bool
  hbButtonWasPressed : Bool
  hbLastDebounceTime : Nat
  hbLastButtonState : Bool
  hbSleepTriggered : Bool
  ctrl : LEDState
  deriving Repr, DecidableEq

/-- Initial `HBState`: the constructor (lines 292-299) initializes the
class statics to `false, 0, true, false`; the function-local statics are
initialized to the same values at their declarations (lines 596-599). -/
def initHBState : HBState :=
  { buttonWasPressed := false
    lastDebounceTime := 0
    lastButtonState := true
    sleepTriggered := false
    hbButtonWasPressed := false
    hbLastDebounceTime := 0
    hbLastButtonState := true
    hbSleepTriggered := false
    ctrl := initLEDState }

/-- Press-start block of `handleButton` (lines 612-617): on a stable press
with the local `buttonWasPressed` still clear, record the press start and
set the local statics. -/
def hbPressStart (now : Nat) (pressed : Bool) (s : HBState) : HBState :=
  if pressed = true ∧ s.hbButtonWasPressed = false then
    { s with ctrl := { s.ctrl with buttonPressStart := now, isFlashingOrange := false },
             hbButtonWasPressed := true, hbSleepTriggered := false }
  else s

/-- Hold block of `handleButton` (lines 620-637): while the button stays
pressed, trigger the sleep transition past `SLEEP_PRESS_TIME` (once) or
flash orange in the long-press window. -/
def hbHold (now : Nat) (pressed : Bool) (s : HBState) : HBState :=
  if pressed = true ∧ s.hbButtonWasPressed = true then
    let pd := now - s.ctrl.buttonPressStart
    if SLEEP_PRESS_TIME < pd ∧ s.hbSleepTriggered = false then
      { s with ctrl := sleepTransition s.ctrl, hbSleepTriggered := true }
    else if LONG_PRESS_TIME < pd ∧ pd ≤ SLEEP_PRESS_TIME then
      { s with ctrl := { s.ctrl with isFlashingOrange := true } }
    else s
  else s

/-- Release block of `handleButton` (lines 640-649): on release dispatch
the press duration to `handleButtonPress` unless a sleep was already
triggered during the hold. -/
def hbRelease (now : Nat) (pressed : Bool) (s : HBState) : HBState :=
  if pressed = false ∧ s.hbButtonWasPressed = true then
    let pd := now - s.ctrl.buttonPressStart
    let s1 := if DEBOUNCE_TIME ≤ pd then
        let c := { s.ctrl with isFlashingOrange := false }
        if s.hbSleepTriggered = false then { s with ctrl := handleButtonPress pd c }
        else { s with ctrl := c }
      else s
    { s1 with hbButtonWasPressed := false }
  else s

/-- `LEDControllerUsermod::handleButton` (lines 595-653) at time `now` with
the debounced-active button level `pressed` (`!digitalRead(BTN_PIN)`):
reset the debounce timer on a level change, and once the level has been
stable past `DEBOUNCE_TIME` run the press-start, hold and release blocks in
order.  Name resolution in the source picks the function-local statics (the
`hb*` fields); entry into brightness selection is modelled by its flag (the
blocking wait loop is driven by separate events). -/
def handleButton (now : Nat) (pressed : Bool) (s : HBState) : HBState :=
  let s1 := if pressed ≠ s.hbLastButtonState then { s with hbLastDebounceTime := now } else s
  let s4 :=
    if DEBOUNCE_TIME < now - s1.hbLastDebounceTime then
      hbRelease now pressed (hbHold now pressed (hbPressStart now pressed s1))
    else s1
  { s4 with hbLastButtonState := pressed }

/-- A run of raw `(time, buttonLevel)` samples through `handleButton`. -/
def hbRun (inputs : List (Nat × Bool)) (s : HBState) : HBState :=
  inputs.foldl (fun s p => handleButton p.1 p.2 s) s

/-- Relation between the module state and the history `h` of delivered
readings that drives the C1 argument: `lastInputState` mirrors the last
delivered level, `shutdownTriggered` equals the specification's
continuously-LOW condition, and while the pin is LOW `inputLowStartTime`
is the time of the falling-edge reading. -/
def pmInv (s : PMState) (h : List (Nat × Bool)) : Prop :=
  s.lastInputState = lastLevel h ∧
  s.shutdownTriggered = lowHold h ∧
  (lastLevel h = false → s.inputLowStartTime = lowStartTime h)

/-! ## History lemmas -/

theorem lastLevel_append (h : List (Nat × Bool)) (x : Nat × Bool) :
    lastLevel (h ++ [x]) = x.2 := by
  simp [lastLevel]

theorem lastTime_append (h : List (Nat × Bool)) (x : Nat × Bool) :
    lastTime (h ++ [x]) = x.1 := by
  simp [lastTime]

theorem lowRun_append (h : List (Nat × Bool)) (x : Nat × Bool) :
    lowRun (h ++ [x]) = if x.2 = true then [] else x :: lowRun h := by
  cases hx : x.2 <;> simp [lowRun, List.takeWhile_cons, hx]

theorem lowRun_nil_iff (h : List (Nat × Bool)) :
    lowRun h = [] ↔ lastLevel h = true := by
  cases hr : h.reverse with
  | nil => simp [lowRun, lastLevel, hr]
  | cons p r =>
      cases hp : p.2 <;> simp [lowRun, lastLevel, hr, List.takeWhile_cons, hp]

theorem lowHold_of_lastLevel_true (h : List (Nat × Bool)) (hl : lastLevel h = true) :
    lowHold h = false := by
  have h0 : lowRun h = [] := (lowRun_nil_iff h).2 hl
  simp [lowHold, h0]

theorem low_append_falling (h : List (Nat × Bool)) (t : Nat) (hl : lastLevel h = true) :
    lowStartTime (h ++ [(t, false)]) = t ∧ lowHold (h ++ [(t, false)]) = false := by
  have h0 : lowRun h = [] := (lowRun_nil_iff h).2 hl
  have h1 : lowRun (h ++ [(t, false)]) = [(t, false)] := by
    simp [lowRun_append, h0]
  refine ⟨by simp [lowStartTime, h1], ?_⟩
  simp only [lowHold, h1, List.getLastD]
  simp [shutdownDelay]

theorem low_append_low (h : List (Nat × Bool)) (t : Nat) (hl : lastLevel h = false) :
    lowStartTime (h ++ [(t, false)]) = lowStartTime h ∧
    lowHold (h ++ [(t, false)]) = decide (lowStartTime h + shutdownDelay ≤ t) := by
  rcases hq : lowRun h with _ | ⟨p, rest⟩
  · rw [lowRun_nil_iff] at hq; rw [hq] at hl; cases hl
  · have h1 : lowRun (h ++ [(t, false)]) = (t, false) :: p :: rest := by
      simp [lowRun_append, hq]
    have e1 : (p :: rest).getLastD (t, false) = rest.getLastD p := List.getLastD_cons _ _ _
    constructor
    · simp only [lowStartTime, h1, hq, e1]
    · simp only [lowHold, h1, e1, lowStartTime, hq]

theorem lowHold_low (h : List (Nat × Bool)) (hl : lastLevel h = false) :
    lowHold h = decide (lowStartTime h + shutdownDelay ≤ lastTime h) := by
  cases hr : h.reverse with
  | nil => rw [show lastLevel h = true by simp [lastLevel, hr]] at hl; cases hl
  | cons p r =>
      have hp : p.2 = false := by
        have : lastLevel h = p.2 := by simp [lastLevel, hr]
        rw [this] at hl; exact hl
      have h1 : lowRun h = p :: r.takeWhile (fun q => !q.2) := by
        simp [lowRun, hr, List.takeWhile_cons, hp]
      simp [lowHold, h1, lowStartTime, lastTime, hr]

theorem lowHold_append_high (h : List (Nat × Bool)) (t : Nat) :
    lowHold (h ++ [(t, true)]) = false := by
  have h0 : lowRun (h ++ [(t, true)]) = [] := by simp [lowRun_append]
  simp [lowHold, h0]

theorem pmInv_checkInputPin (pin : Bool) (now : Nat) (s : PMState)
    (h : List (Nat × Bool)) (hinv : pmInv s h) (hlast : lastTime h ≤ now) :
    pmInv (checkInputPin pin now s) (h ++ [(now, pin)]) := by
  obtain ⟨h1, h2, h3⟩ := hinv
  cases pin with
  | true =>
      cases hL : lastLevel h with
      | true =>
          rw [hL] at h1
          have hstate : checkInputPin true now s = { s with lastInputState := true } := by
            simp [checkInputPin, h1]
          refine ⟨?_, ?_, ?_⟩
          · rw [hstate, lastLevel_append]
          · rw [hstate, lowHold_append_high]
            simpa [h2] using lowHold_of_lastLevel_true h hL
          · rw [lastLevel_append]; intro hc; cases hc
      | false =>
          rw [hL] at h1
          have hstate : checkInputPin true now s =
              { s with inputLowStartTime := 0, shutdownTriggered := false,
                       outputPin := true, keepAlivePin := true,
                       lastInputState := true } := by
            simp [checkInputPin, h1]
          refine ⟨?_, ?_, ?_⟩
          · rw [hstate, lastLevel_append]
          · rw [hstate, lowHold_append_high]
          · rw [lastLevel_append]; intro hc; cases hc
  | false =>
      cases hL : lastLevel h with
      | true =>
          rw [hL] at h1
          have htrig : s.shutdownTriggered = false := by
            rw [h2]; exact lowHold_of_lastLevel_true h hL
          have hstate : checkInputPin false now s =
              { s with inputLowStartTime := now, lastInputState := false } := by
            simp [checkInputPin, h1, htrig, shutdownDelay]
          obtain ⟨hs1, hs2⟩ := low_append_falling h now hL
          refine ⟨?_, ?_, ?_⟩
          · rw [hstate, lastLevel_append]
          · rw [hstate, hs2]; exact htrig
          · intro _; rw [hstate, hs1]
      | false =>
          rw [hL] at h1
          have hstart : s.inputLowStartTime = lowStartTime h := h3 hL
          obtain ⟨hs1, hs2⟩ := low_append_low h now hL
          by_cases ht : s.shutdownTriggered = true
          · have hstate : checkInputPin false now s = { s with lastInputState := false } := by
              simp [checkInputPin, h1, ht]
            have hheld : lowStartTime h + shutdownDelay ≤ lastTime h := by
              have := lowHold_low h hL
              rw [h2] at ht; rw [ht] at this
              exact of_decide_eq_true this.symm
            refine ⟨?_, ?_, ?_⟩
            · rw [hstate, lastLevel_append]
            · rw [hstate, hs2]
              rw [ht]
              exact (decide_eq_true (by omega)).symm
            · intro _; rw [hstate, hs1, hstart]
          · have htf : s.shutdownTriggered = false := by
              cases hb : s.shutdownTriggered
              · rfl
              · exact absurd hb ht
            by_cases harm : shutdownDelay ≤ now - s.inputLowStartTime
            · have hstate : checkInputPin false now s =
                  { s with shutdownTriggered := true, outputPin := false,
                           keepAlivePin := false, lastInputState := false } := by
                simp [checkInputPin, h1, htf, harm]
              refine ⟨?_, ?_, ?_⟩
              · rw [hstate, lastLevel_append]
              · rw [hstate, hs2]
                have : lowStartTime h + shutdownDelay ≤ now := by
                  rw [hstart] at harm
                  simp only [shutdownDelay] at harm ⊢
                  omega
                exact (decide_eq_true this).symm
              · intro _; rw [hstate, hs1, hstart]
            · have hstate : checkInputPin false now s = { s with lastInputState := false } := by
                simp [checkInputPin, h1, htf, harm]
              refine ⟨?_, ?_, ?_⟩
              · rw [hstate, lastLevel_append]
              · rw [hstate, hs2, htf]
                have : ¬ (lowStartTime h + shutdownDelay ≤ now) := by
                  rw [hstart] at harm; omega
                exact (decide_eq_false this).symm
              · intro _; rw [hstate, hs1, hstart]

theorem checkBattery_lastInputState (a : Nat) (s : PMState) :
    (checkBatteryVoltage a s).lastInputState = s.lastInputState := by
  simp only [checkBatteryVoltage]; split <;> rfl

theorem checkBattery_shutdownTriggered (a : Nat) (s : PMState) :
    (checkBatteryVoltage a s).shutdownTriggered = s.shutdownTriggered := by
  simp only [checkBatteryVoltage]; split <;> rfl

theorem checkBattery_inputLowStartTime (a : Nat) (s : PMState) :
    (checkBatteryVoltage a s).inputLowStartTime = s.inputLowStartTime := by
  simp only [checkBatteryVoltage]; split <;> rfl

theorem pmInv_of_fields (s s' : PMState) (h : List (Nat × Bool))
    (e1 : s'.lastInputState = s.lastInputState)
    (e2 : s'.shutdownTriggered = s.shutdownTriggered)
    (e3 : s'.inputLowStartTime = s.inputLowStartTime)
    (hp : pmInv s h) : pmInv s' h := by
  obtain ⟨a, b, c⟩ := hp
  exact ⟨by rw [e1]; exact a, by rw [e2]; exact b, fun hx => by rw [e3]; exact c hx⟩

theorem pmInv_loopTick (now : Nat) (pin : Bool) (adc : Nat) (s : PMState)
    (h : List (Nat × Bool)) (hinv : pmInv s h) (hlast : lastTime h ≤ now)
    (hlt : now < KEEP_ALIVE_TIMEOUT) :
    pmInv (loopTick now pin adc s)
      (h ++ (if inputCheckInterval < now - s.lastInputCheck then [(now, pin)] else [])) ∧
    lastTime (h ++ (if inputCheckInterval < now - s.lastInputCheck then [(now, pin)] else [])) ≤
      now := by
  have hka : ∀ x : PMState, ¬ (KEEP_ALIVE_TIMEOUT ≤ now - x.lastActivityTime) := by
    intro x
    have := Nat.sub_le now x.lastActivityTime
    omega
  by_cases hg : inputCheckInterval < now - s.lastInputCheck
  · rw [if_pos hg]
    have H1 := pmInv_checkInputPin pin now s h hinv hlast
    refine ⟨?_, by rw [lastTime_append]⟩
    simp only [loopTick, if_pos hg]
    rw [if_neg (hka _)]
    split
    · exact pmInv_of_fields (checkInputPin pin now s) _ _
        (by simp [checkBattery_lastInputState]) (by simp [checkBattery_shutdownTriggered])
        (by simp [checkBattery_inputLowStartTime]) H1
    · exact pmInv_of_fields (checkInputPin pin now s) _ _
        (by simp) (by simp) (by simp) H1
  · rw [if_neg hg]
    simp only [List.append_nil]
    refine ⟨?_, le_trans hlast (Nat.le_refl now)⟩
    simp only [loopTick, if_neg hg]
    rw [if_neg (hka _)]
    split
    · exact pmInv_of_fields s _ _
        (by simp [checkBattery_lastInputState]) (by simp [checkBattery_shutdownTriggered])
        (by simp [checkBattery_inputLowStartTime]) hinv
    · exact hinv

theorem pmInv_runEvents (es : List PMEvent) :
    ∀ (s : PMState) (h : List (Nat × Bool)) (t0 : Nat),
      pmInv s h → lastTime h ≤ t0 → chronoFrom t0 es → timesBelow es →
      pmInv (runEvents es s) (h ++ deliveredEv es s) := by
  induction es with
  | nil => intro s h t0 hinv _ _ _; simpa [runEvents, deliveredEv] using hinv
  | cons e es ih =>
      intro s h t0 hinv hlast hchr hblw
      obtain ⟨hte, hchr2⟩ := hchr
      have hblw2 : timesBelow es := fun x hx => hblw x (List.mem_cons_of_mem _ hx)
      have hbe : eventTime e < KEEP_ALIVE_TIMEOUT := hblw e (List.mem_cons_self _ _)
      cases e with
      | tick now pin adc =>
          simp only [eventTime] at hte hbe
          have hnow : lastTime h ≤ now := le_trans hlast hte
          have H := pmInv_loopTick now pin adc s h hinv hnow hbe
          have hrw : runEvents (PMEvent.tick now pin adc :: es) s =
              runEvents es (loopTick now pin adc s) := by
            simp [runEvents, stepEvent]
          have hdel : deliveredEv (PMEvent.tick now pin adc :: es) s =
              (if inputCheckInterval < now - s.lastInputCheck then [(now, pin)] else []) ++
                deliveredEv es (loopTick now pin adc s) := by
            simp [deliveredEv, stepEvent]
          rw [hrw, hdel, ← List.append_assoc]
          exact ih (loopTick now pin adc s) _ now H.1 H.2 hchr2 hblw2
      | activity now =>
          simp only [eventTime] at hte
          have hrw : runEvents (PMEvent.activity now :: es) s =
              runEvents es (updateKeepAliveTimer now s) := by
            simp [runEvents, stepEvent]
          have hdel : deliveredEv (PMEvent.activity now :: es) s =
              deliveredEv es (updateKeepAliveTimer now s) := by
            simp [deliveredEv, stepEvent]
          rw [hrw, hdel]
          refine ih _ _ now ?_ (le_trans hlast hte) hchr2 hblw2
          exact pmInv_of_fields s _ _ rfl rfl rfl hinv

/-- C1, counterexample: in the run consisting of a single loop tick at time
360000 with the input pin reading HIGH (and a healthy battery reading),
the keep-alive timeout branch of `loop()` sets `shutdownTriggered = true`
although the pin was never LOW, so the claimed equivalence fails. -/
theorem C1_counterexample : ¬ specC1 [PMEvent.tick 360000 true 4095] := by
  have hcal : ¬ (calibratedVoltage 4095 ≤ LOW_BATTERY_THRESHOLD) := by
    norm_num [calibratedVoltage, batteryVoltage, voltageAtPin, CALIBRATION_SLOPE,
      CALIBRATION_INTERCEPT, VOLTAGE_DIVIDER, ACTUAL_R1, ACTUAL_R2, ADC_MAX_VALUE,
      ADC_REF_VOLTAGE, LOW_BATTERY_THRESHOLD]
  have hrun : (runEvents [PMEvent.tick 360000 true 4095] setupState).shutdownTriggered = true := by
    simp [runEvents, stepEvent, loopTick, checkInputPin, checkBatteryVoltage, setupState,
      hcal, inputCheckInterval, batteryCheckInterval, KEEP_ALIVE_TIMEOUT, shutdownDelay]
  have hdel : deliveredEv [PMEvent.tick 360000 true 4095] setupState = [(360000, true)] := by
    simp [deliveredEv, setupState, inputCheckInterval]
  intro hs
  unfold specC1 at hs
  rw [hrun, hdel] at hs
  have h2 : lowHold [(360000, true)] = true := hs.1 rfl
  have h3 : lowHold [(360000, true)] = false := by decide
  rw [h3] at h2
  exact Bool.false_ne_true h2

/-- C1, amended: over every chronologically ordered run in which the
keep-alive timeout never elapses (all event times below
`KEEP_ALIVE_TIMEOUT`), `shutdownTriggered` is true after the run iff the
delivered input readings were continuously LOW for at least `shutdownDelay`
milliseconds since the last rising edge; in particular it becomes false at
a rising edge.  (Without that restriction the keep-alive branch of `loop()`
also sets `shutdownTriggered`, see the counterexample.) -/
theorem C1_amended (es : List PMEvent) (hc : chronoFrom 0 es) (hb : timesBelow es) :
    (runEvents es setupState).shutdownTriggered = true ↔
      lowHold (deliveredEv es setupState) = true := by
  have hinv0 : pmInv setupState [] := by
    refine ⟨rfl, rfl, ?_⟩
    intro hx
    simp [lastLevel] at hx
  have H := pmInv_runEvents es setupState [] 0 hinv0 (by simp [lastTime]) hc hb
  rw [List.nil_append] at H
  rw [H.2.1]

/-- C1, witness: a concrete run of two delivered LOW readings 5101 ms apart
satisfies the amended claim's hypotheses, and the equivalence holds for it. -/
theorem C1_witness :
    chronoFrom 0 [PMEvent.tick 200 false 0, PMEvent.tick 5301 false 0] ∧
    timesBelow [PMEvent.tick 200 false 0, PMEvent.tick 5301 false 0] ∧
    ((runEvents [PMEvent.tick 200 false 0, PMEvent.tick 5301 false 0] setupState).shutdownTriggered
        = true ↔
      lowHold (deliveredEv [PMEvent.tick 200 false 0, PMEvent.tick 5301 false 0] setupState)
        = true) := by
  have hc : chronoFrom 0 [PMEvent.tick 200 false 0, PMEvent.tick 5301 false 0] :=
    ⟨by norm_num [eventTime], by norm_num [eventTime], trivial⟩
  have hb : timesBelow [PMEvent.tick 200 false 0, PMEvent.tick 5301 false 0] := by
    intro e he
    fin_cases he <;> norm_num [eventTime, KEEP_ALIVE_TIMEOUT]
  exact ⟨hc, hb, C1_amended _ hc hb⟩

theorem loopTick_allHigh (t adc : Nat) (s : PMState)
    (hadc : ¬ (calibratedVoltage adc ≤ LOW_BATTERY_THRESHOLD))
    (h2 : s.lastInputState = true) :
    (loopTick t true adc s).lastActivityTime = s.lastActivityTime ∧
    (loopTick t true adc s).lastInputState = true ∧
    (loopTick t true adc s).shutdownTriggered =
      (s.shutdownTriggered || decide (KEEP_ALIVE_TIMEOUT ≤ t - s.lastActivityTime)) ∧
    (loopTick t true adc s).keepAlivePin =
      (if KEEP_ALIVE_TIMEOUT ≤ t - s.lastActivityTime then false else s.keepAlivePin) ∧
    (loopTick t true adc s).outputPin =
      (if KEEP_ALIVE_TIMEOUT ≤ t - s.lastActivityTime then false else s.outputPin) := by
  have hci : checkInputPin true t s = { s with lastInputState := true } := by
    simp [checkInputPin, h2]
  have hbat : ∀ x : PMState, checkBatteryVoltage adc x =
      { x with currentBatteryVoltage := calibratedVoltage adc } := by
    intro x
    simp [checkBatteryVoltage, hadc]
  simp only [loopTick, hci, hbat]
  split_ifs <;> simp_all [h2]

theorem runAllHigh (adc : Nat) (hadc : ¬ (calibratedVoltage adc ≤ LOW_BATTERY_THRESHOLD)) :
    ∀ (ts : List Nat) (T : Nat) (s : PMState),
      s.lastActivityTime = T → s.lastInputState = true →
      ((runEvents (ts.map fun t => PMEvent.tick t true adc) s).shutdownTriggered =
          (s.shutdownTriggered || ts.any fun t => decide (KEEP_ALIVE_TIMEOUT ≤ t - T)) ∧
        (runEvents (ts.map fun t => PMEvent.tick t true adc) s).keepAlivePin =
          (s.keepAlivePin && !(ts.any fun t => decide (KEEP_ALIVE_TIMEOUT ≤ t - T))) ∧
        (runEvents (ts.map fun t => PMEvent.tick t true adc) s).outputPin =
          (s.outputPin && !(ts.any fun t => decide (KEEP_ALIVE_TIMEOUT ≤ t - T)))) := by
  intro ts
  induction ts with
  | nil => intro T s _ _; simp [runEvents]
  | cons t rest ih =>
      intro T s h1 h2
      have key := loopTick_allHigh t adc s hadc h2
      rw [h1] at key
      have hrw : runEvents ((t :: rest).map fun u => PMEvent.tick u true adc) s =
          runEvents (rest.map fun u => PMEvent.tick u true adc) (loopTick t true adc s) := by
        simp [runEvents, stepEvent]
      rw [hrw]
      obtain ⟨k1, k2, k3⟩ := ih T (loopTick t true adc s) key.1 key.2.1
      refine ⟨?_, ?_, ?_⟩
      · rw [k1, key.2.2.1]
        simp [Bool.or_assoc]
      · rw [k2, key.2.2.2.1]
        by_cases hb : KEEP_ALIVE_TIMEOUT ≤ t - T
        · simp [hb]
        · simp [hb]
      · rw [k3, key.2.2.2.2]
        by_cases hb : KEEP_ALIVE_TIMEOUT ≤ t - T
        · simp [hb]
        · simp [hb]

/-- C2, counterexample: `updateKeepAliveTimer` is called at T = 0 and never
again, yet both output pins are already LOW after two loop ticks at times
200 and 5301 — long before T + timeout (every event time in the run is
below `0 + KEEP_ALIVE_TIMEOUT`) — because the input-pin path of
`checkInputPin` drives them LOW after a 5000 ms LOW hold.  So the pins are
not driven LOW "at exactly T + timeout and not before". -/
theorem C2_counterexample :
    (runEvents [PMEvent.activity 0, PMEvent.tick 200 false 0, PMEvent.tick 5301 false 0]
        setupState).keepAlivePin = false ∧
    (runEvents [PMEvent.activity 0, PMEvent.tick 200 false 0, PMEvent.tick 5301 false 0]
        setupState).outputPin = false ∧
    (∀ e ∈ [PMEvent.activity 0, PMEvent.tick 200 false 0, PMEvent.tick 5301 false 0],
      eventTime e < 0 + KEEP_ALIVE_TIMEOUT) := by
  refine ⟨by decide, by decide, ?_⟩
  intro e he
  fin_cases he <;> norm_num [eventTime, KEEP_ALIVE_TIMEOUT]

/-- C2, amended: provided every input reading is HIGH and every battery
reading stays above the threshold, after `updateKeepAliveTimer` at time T
and never again the keep-alive and output pins are LOW after a run of loop
ticks exactly when some tick occurred at time ≥ T + timeout (so they first
go LOW at the first tick at or after T + timeout — at exactly T + timeout
when a tick happens then — and not before, and remain LOW for the rest of
the run, as does `shutdownTriggered`); without the all-HIGH proviso the
input-pin path can drive the pins LOW earlier (see the counterexample),
and on each tick after the deadline the LOW write is re-executed. -/
theorem C2_amended (T adc : Nat) (ts : List Nat)
    (hadc : LOW_BATTERY_THRESHOLD < calibratedVoltage adc) :
    ((runEvents (PMEvent.activity T :: ts.map fun t => PMEvent.tick t true adc)
        setupState).keepAlivePin = false ↔ ∃ t ∈ ts, T + KEEP_ALIVE_TIMEOUT ≤ t) ∧
    ((runEvents (PMEvent.activity T :: ts.map fun t => PMEvent.tick t true adc)
        setupState).outputPin = false ↔ ∃ t ∈ ts, T + KEEP_ALIVE_TIMEOUT ≤ t) ∧
    ((runEvents (PMEvent.activity T :: ts.map fun t => PMEvent.tick t true adc)
        setupState).shutdownTriggered = true ↔ ∃ t ∈ ts, T + KEEP_ALIVE_TIMEOUT ≤ t) := by
  have hadc2 : ¬ (calibratedVoltage adc ≤ LOW_BATTERY_THRESHOLD) := not_le.mpr hadc
  have hrw : runEvents (PMEvent.activity T :: ts.map fun t => PMEvent.tick t true adc)
      setupState =
      runEvents (ts.map fun t => PMEvent.tick t true adc)
        { setupState with lastActivityTime := T } := by
    simp [runEvents, stepEvent, updateKeepAliveTimer]
  obtain ⟨k1, k2, k3⟩ :=
    runAllHigh adc hadc2 ts T { setupState with lastActivityTime := T } rfl rfl
  have hexists : ((ts.any fun t => decide (KEEP_ALIVE_TIMEOUT ≤ t - T)) = true) ↔
      ∃ t ∈ ts, T + KEEP_ALIVE_TIMEOUT ≤ t := by
    rw [List.any_eq_true]
    constructor
    · rintro ⟨t, ht, hd⟩
      refine ⟨t, ht, ?_⟩
      simp only [decide_eq_true_eq] at hd
      simp only [KEEP_ALIVE_TIMEOUT] at hd ⊢
      omega
    · rintro ⟨t, ht, hd⟩
      refine ⟨t, ht, ?_⟩
      simp only [decide_eq_true_eq]
      simp only [KEEP_ALIVE_TIMEOUT] at hd ⊢
      omega
  rw [hrw]
  refine ⟨?_, ?_, ?_⟩
  · rw [k2]; simpa [setupState] using hexists
  · rw [k3]; simpa [setupState] using hexists
  · rw [k1]; simpa [setupState] using hexists

/-- C2, witness: a healthy ADC reading satisfies the amended claim's
hypothesis, and for the run "activity at 0, one tick at 360000" the pins
are LOW exactly because 0 + timeout ≤ 360000. -/
theorem C2_witness :
    LOW_BATTERY_THRESHOLD < calibratedVoltage 4095 ∧
    ((runEvents (PMEvent.activity 0 :: [360000].map fun t => PMEvent.tick t true 4095)
        setupState).keepAlivePin = false ↔ ∃ t ∈ [360000], 0 + KEEP_ALIVE_TIMEOUT ≤ t) := by
  have h : LOW_BATTERY_THRESHOLD < calibratedVoltage 4095 := by
    norm_num [calibratedVoltage, batteryVoltage, voltageAtPin, CALIBRATION_SLOPE,
      CALIBRATION_INTERCEPT, VOLTAGE_DIVIDER, ACTUAL_R1, ACTUAL_R2, ADC_MAX_VALUE,
      ADC_REF_VOLTAGE, LOW_BATTERY_THRESHOLD]
  exact ⟨h, (C2_amended 0 4095 [360000] h).1⟩

theorem checkInputPin_lowBat (cur : Bool) (now : Nat) (s : PMState) :
    (checkInputPin cur now s).lowBatteryShutdown = s.lowBatteryShutdown := by
  simp only [checkInputPin]
  split_ifs <;> rfl

theorem checkBatteryVoltage_lowBat_mono (adc : Nat) (s : PMState)
    (h : s.lowBatteryShutdown = true) :
    (checkBatteryVoltage adc s).lowBatteryShutdown = true := by
  simp only [checkBatteryVoltage]
  split_ifs with hc
  · rfl
  · simpa using h

theorem loopTick_lowBat_mono (now : Nat) (pin : Bool) (adc : Nat) (s : PMState)
    (h : s.lowBatteryShutdown = true) :
    (loopTick now pin adc s).lowBatteryShutdown = true := by
  simp only [loopTick, checkBatteryVoltage]
  split_ifs <;> simp_all [checkInputPin_lowBat]

/-- C3: the low-battery latch is monotone — once `lowBatteryShutdown` is
true, no input-pin check, no battery check, no loop tick or keep-alive
activity call, and hence no run of such operations, ever resets it. -/
theorem C3_monotone :
    (∀ (cur : Bool) (now : Nat) (s : PMState), s.lowBatteryShutdown = true →
      (checkInputPin cur now s).lowBatteryShutdown = true) ∧
    (∀ (adc : Nat) (s : PMState), s.lowBatteryShutdown = true →
      (checkBatteryVoltage adc s).lowBatteryShutdown = true) ∧
    (∀ (e : PMEvent) (s : PMState), s.lowBatteryShutdown = true →
      (stepEvent e s).lowBatteryShutdown = true) ∧
    (∀ (es : List PMEvent) (s : PMState), s.lowBatteryShutdown = true →
      (runEvents es s).lowBatteryShutdown = true) := by
  have hstep : ∀ (e : PMEvent) (s : PMState), s.lowBatteryShutdown = true →
      (stepEvent e s).lowBatteryShutdown = true := by
    intro e s h
    cases e with
    | tick now pin adc => exact loopTick_lowBat_mono now pin adc s h
    | activity now => simpa [stepEvent, updateKeepAliveTimer] using h
  have hrun : ∀ (es : List PMEvent) (s : PMState), s.lowBatteryShutdown = true →
      (runEvents es s).lowBatteryShutdown = true := by
    intro es
    induction es with
    | nil => intro s h; simpa [runEvents] using h
    | cons e es ih =>
        intro s h
        have h1 := hstep e s h
        simpa [runEvents] using ih (stepEvent e s) h1
  exact ⟨fun cur now s h => by rw [checkInputPin_lowBat]; exact h,
    fun adc s h => checkBatteryVoltage_lowBat_mono adc s h, hstep, hrun⟩

/-- C3, witness: a state with the latch set keeps it set across a concrete
run of a loop tick and an activity call. -/
theorem C3_witness :
    ({ setupState with lowBatteryShutdown := true } : PMState).lowBatteryShutdown = true ∧
    (runEvents [PMEvent.tick 200 true 0, PMEvent.activity 300]
        { setupState with lowBatteryShutdown := true }).lowBatteryShutdown = true := by
  exact ⟨rfl, C3_monotone.2.2.2 _ _ rfl⟩

/-- C4: the battery conversion divides the ADC fraction of 3.3 V by the
divider factor 2/3 and applies the calibration 0.878·v − 0.010; for raw
reading 2048 the calibrated result is within 0.001 V of 2.163 V, is at most
the 3.2 V threshold, and a battery check in an unlatched state latches
`lowBatteryShutdown` and drives both output pins LOW. -/
theorem C4_battery :
    VOLTAGE_DIVIDER = 2 / 3 ∧
    batteryVoltage 2048 = voltageAtPin 2048 / (2 / 3) ∧
    |calibratedVoltage 2048 - 2163 / 1000| < 1 / 1000 ∧
    calibratedVoltage 2048 ≤ LOW_BATTERY_THRESHOLD ∧
    (∀ s : PMState, s.lowBatteryShutdown = false →
      ((checkBatteryVoltage 2048 s).lowBatteryShutdown = true ∧
        (checkBatteryVoltage 2048 s).outputPin = false ∧
        (checkBatteryVoltage 2048 s).keepAlivePin = false)) := by
  have hdiv : VOLTAGE_DIVIDER = 2 / 3 := by
    norm_num [VOLTAGE_DIVIDER, ACTUAL_R1, ACTUAL_R2]
  have hcal : calibratedVoltage 2048 ≤ LOW_BATTERY_THRESHOLD := by
    norm_num [calibratedVoltage, batteryVoltage, voltageAtPin, CALIBRATION_SLOPE,
      CALIBRATION_INTERCEPT, VOLTAGE_DIVIDER, ACTUAL_R1, ACTUAL_R2, ADC_MAX_VALUE,
      ADC_REF_VOLTAGE, LOW_BATTERY_THRESHOLD]
  refine ⟨hdiv, by rw [batteryVoltage, hdiv], ?_, hcal, ?_⟩
  · rw [abs_lt]
    constructor <;>
      norm_num [calibratedVoltage, batteryVoltage, voltageAtPin, CALIBRATION_SLOPE,
        CALIBRATION_INTERCEPT, VOLTAGE_DIVIDER, ACTUAL_R1, ACTUAL_R2, ADC_MAX_VALUE,
        ADC_REF_VOLTAGE]
  · intro s h
    simp only [checkBatteryVoltage]
    rw [if_pos ⟨hcal, h⟩]
    exact ⟨rfl, rfl, rfl⟩

/-- C4, witness: the fresh boot state is unlatched, and one battery check
with raw reading 2048 latches it and drives both outputs LOW. -/
theorem C4_witness :
    setupState.lowBatteryShutdown = false ∧
    (checkBatteryVoltage 2048 setupState).lowBatteryShutdown = true ∧
    (checkBatteryVoltage 2048 setupState).outputPin = false ∧
    (checkBatteryVoltage 2048 setupState).keepAlivePin = false := by
  have H := C4_battery.2.2.2.2 setupState rfl
  exact ⟨rfl, H.1, H.2.1, H.2.2⟩

theorem colorAdvance_lt (c : Nat) : colorAdvance c < COLOR_COUNT := by
  simp only [colorAdvance, COLOR_COUNT]
  omega

theorem colorAdvance_ne_wled (c : Nat) : colorAdvance c ≠ WLED_MODE := by
  have := colorAdvance_lt c
  simp only [COLOR_COUNT, WLED_MODE] at *
  omega

theorem ledStep_lastFields_frame (e : LEDEvent) (s : LEDState)
    (hw : isSleepWrite e s = false) :
    (ledStep e s).lastMode = s.lastMode ∧ (ledStep e s).lastColor = s.lastColor ∧
    (ledStep e s).lastPattern = s.lastPattern := by
  cases e with
  | press d =>
      simp only [isSleepWrite, Bool.and_eq_false_iff] at hw
      simp only [ledStep, handleButtonPress, enterBrightnessSelection, sleepTransition]
      split_ifs <;>
        simp_all [QUICK_PRESS_TIME, LONG_PRESS_TIME, SLEEP_PRESS_TIME] <;> omega
  | sleepHoldEv => simp [isSleepWrite] at hw
  | brightQuick =>
      simp only [ledStep]
      split_ifs <;> simp [cycleBrightness]
  | brightLong =>
      simp only [ledStep]
      split_ifs <;> simp
  | json m c p a b => simp [ledStep, readFromJsonState]

theorem ledStep_lastFields_snapshot (e : LEDEvent) (s : LEDState)
    (hw : isSleepWrite e s = true) :
    (ledStep e s).lastMode = s.currentMode ∧ (ledStep e s).lastColor = s.currentColor ∧
    (ledStep e s).lastPattern = s.currentPattern := by
  cases e with
  | press d =>
      simp only [isSleepWrite, Bool.and_eq_true, decide_eq_true_eq] at hw
      obtain ⟨hact, hd⟩ := hw
      simp only [ledStep, handleButtonPress, sleepTransition]
      split_ifs <;>
        simp_all [QUICK_PRESS_TIME, LONG_PRESS_TIME, SLEEP_PRESS_TIME] <;> omega
  | sleepHoldEv => simp [ledStep, sleepTransition]
  | brightQuick => simp [isSleepWrite] at hw
  | brightLong => simp [isSleepWrite] at hw
  | json m c p a b => simp [isSleepWrite] at hw

theorem ledStep_last_oblivious (e : LEDEvent) (s t : LEDState)
    (h : eraseLast s = eraseLast t) (hwake : isWakeRead e s = false) :
    eraseLast (ledStep e s) = eraseLast (ledStep e t) := by
  obtain ⟨cm, cc, cp, ia, fo, ib, w, lm1, lc1, lp1, mb, cb, bp, po, lu⟩ := s
  obtain ⟨cm2, cc2, cp2, ia2, fo2, ib2, w2, lm2, lc2, lp2, mb2, cb2, bp2, po2, lu2⟩ := t
  simp only [eraseLast, LEDState.mk.injEq] at h
  obtain ⟨e1, e2, e3, e4, e5, e6, e7, -, -, -, e8, e9, e10, e11, e12⟩ := h
  subst e1; subst e2; subst e3; subst e4; subst e5; subst e6; subst e7
  subst e8; subst e9; subst e10; subst e11; subst e12
  have hne : ∀ c : Nat, ¬ (colorAdvance c = WLED_MODE) := colorAdvance_ne_wled
  cases e with
  | press d =>
      simp only [isWakeRead] at hwake
      simp only [ledStep, handleButtonPress, enterBrightnessSelection, sleepTransition]
      split_ifs <;> simp_all [eraseLast]
  | sleepHoldEv => simp [ledStep, sleepTransition, eraseLast]
  | brightQuick =>
      simp only [ledStep]
      split_ifs <;> simp [cycleBrightness, eraseLast]
  | brightLong =>
      simp only [isWakeRead] at hwake
      simp only [ledStep]
      split_ifs <;> simp_all [eraseLast]
  | json m c p a b => simp [ledStep, readFromJsonState, eraseLast]

/-- C5: the `lastMode`/`lastColor`/`lastPattern` snapshot fields are
written only on the two sleep transitions, where they receive exactly the
current mode/color/pattern (so they always hold the most recent active
configuration); and every event other than the two wake restores is
semantically independent of them — two states agreeing outside the `last*`
fields step to states agreeing outside the `last*` fields. -/
theorem C5_lastFields :
    (∀ (e : LEDEvent) (s : LEDState), isSleepWrite e s = false →
      ((ledStep e s).lastMode = s.lastMode ∧ (ledStep e s).lastColor = s.lastColor ∧
        (ledStep e s).lastPattern = s.lastPattern)) ∧
    (∀ (e : LEDEvent) (s : LEDState), isSleepWrite e s = true →
      ((ledStep e s).lastMode = s.currentMode ∧ (ledStep e s).lastColor = s.currentColor ∧
        (ledStep e s).lastPattern = s.currentPattern)) ∧
    (∀ (e : LEDEvent) (s t : LEDState), eraseLast s = eraseLast t → isWakeRead e s = false →
      eraseLast (ledStep e s) = eraseLast (ledStep e t)) :=
  ⟨ledStep_lastFields_frame, ledStep_lastFields_snapshot, ledStep_last_oblivious⟩

/-- C5, witness: concrete instances of all three parts — a brightness press
leaves `lastColor` alone, a sleep hold snapshots `currentColor`, and a
non-wake button press is independent of a changed `lastColor`. -/
theorem C5_witness :
    isSleepWrite LEDEvent.brightQuick initLEDState = false ∧
    (ledStep LEDEvent.brightQuick initLEDState).lastColor = initLEDState.lastColor ∧
    isSleepWrite LEDEvent.sleepHoldEv initLEDState = true ∧
    (ledStep LEDEvent.sleepHoldEv initLEDState).lastColor = initLEDState.currentColor ∧
    eraseLast initLEDState = eraseLast { initLEDState with lastColor := 5 } ∧
    isWakeRead (LEDEvent.press 2000) initLEDState = false ∧
    eraseLast (ledStep (LEDEvent.press 2000) initLEDState) =
      eraseLast (ledStep (LEDEvent.press 2000) { initLEDState with lastColor := 5 }) := by
  refine ⟨by decide, ?_, by decide, ?_, by decide, by decide, ?_⟩
  · exact (C5_lastFields.1 _ _ (by decide)).2.1
  · exact (C5_lastFields.2.1 _ _ (by decide)).2.1
  · exact C5_lastFields.2.2 _ _ _ (by decide) (by decide)

/-- C6: the quick-press color advance is `(c + 1) % COLOR_COUNT` (as
performed by `handleButtonPress` in active color-select mode), and applying
it `COLOR_COUNT` = 10 times returns every one of the ten colors to its
starting value. -/
theorem C6_colorCycle :
    (∀ (d : Nat) (s : LEDState), s.isActive = true → s.currentMode = COLOR_SELECT →
      d < QUICK_PRESS_TIME →
      (handleButtonPress d s).currentColor = colorAdvance s.currentColor) ∧
    (∀ c : Nat, c < COLOR_COUNT → colorAdvance^[COLOR_COUNT] c = c) := by
  constructor
  · intro d s ha hm hd
    simp only [handleButtonPress]
    rw [if_neg (by simp [ha]), if_pos hd, if_pos hm]
    split_ifs <;> simp
  · decide

/-- C6, witness: one quick press from the active initial color WHITE
advances by the modulo counter, and ten advances return color 3 to
itself. -/
theorem C6_witness :
    ({ initLEDState with isActive := true } : LEDState).isActive = true ∧
    (handleButtonPress 0 { initLEDState with isActive := true }).currentColor =
      colorAdvance ({ initLEDState with isActive := true } : LEDState).currentColor ∧
    3 < COLOR_COUNT ∧ colorAdvance^[COLOR_COUNT] 3 = 3 := by
  exact ⟨rfl, C6_colorCycle.1 0 _ rfl rfl (by decide), by decide, C6_colorCycle.2 3 (by decide)⟩

/-- C7: a 1200 ms press released while inactive enters brightness selection
(1200 is at or above the 1000 ms long-press threshold) and performs no
color/pattern mode toggle: mode, color and pattern are unchanged. -/
theorem C7_brightnessEntry (s : LEDState) (h : s.isActive = false) :
    LONG_PRESS_TIME ≤ 1200 ∧
    (handleButtonPress 1200 s).inBrightnessSelection = true ∧
    (handleButtonPress 1200 s).currentMode = s.currentMode ∧
    (handleButtonPress 1200 s).currentColor = s.currentColor ∧
    (handleButtonPress 1200 s).currentPattern = s.currentPattern ∧
    (handleButtonPress 1200 s).isActive = false := by
  refine ⟨by decide, ?_⟩
  simp only [handleButtonPress, enterBrightnessSelection]
  rw [if_pos h]
  rw [if_neg (by decide), if_pos (by decide)]
  simp [h]

/-- C7, witness: the initial (inactive) state enters brightness selection
on a 1200 ms press. -/
theorem C7_witness :
    initLEDState.isActive = false ∧
    (LONG_PRESS_TIME ≤ 1200 ∧
      (handleButtonPress 1200 initLEDState).inBrightnessSelection = true ∧
      (handleButtonPress 1200 initLEDState).currentMode = initLEDState.currentMode ∧
      (handleButtonPress 1200 initLEDState).currentColor = initLEDState.currentColor ∧
      (handleButtonPress 1200 initLEDState).currentPattern = initLEDState.currentPattern ∧
      (handleButtonPress 1200 initLEDState).isActive = false) :=
  ⟨rfl, C7_brightnessEntry initLEDState rfl⟩

/-- C8: whenever the `RandomBlink` re-roll loop returns an index, that
index differs from the previously lit index, it is one of the draws, and
every earlier draw it skipped was equal to the previous index (the draw is
re-rolled until it differs). -/
theorem C8_randomBlink (draws : Nat → Nat) (last : Int) (k fuel r : Nat)
    (h : randomRoll draws last k fuel = some r) :
    (r : Int) ≠ last ∧
    ∃ j, k ≤ j ∧ r = draws j ∧ (draws j : Int) ≠ last ∧
      ∀ i, k ≤ i → i < j → (draws i : Int) = last := by
  induction fuel generalizing k with
  | zero => simp [randomRoll] at h
  | succ fuel ih =>
      rw [randomRoll] at h
      by_cases hc : (draws k : Int) = last
      · rw [if_pos hc] at h
        obtain ⟨hr, j, hkj, hrj, hne, hall⟩ := ih (k + 1) h
        refine ⟨hr, j, by omega, hrj, hne, ?_⟩
        intro i hki hij
        by_cases hik : i = k
        · rw [hik]; exact hc
        · exact hall i (by omega) hij
      · rw [if_neg hc] at h
        have hr : draws k = r := Option.some.inj h
        refine ⟨by rw [← hr]; exact hc, k, Nat.le_refl k, hr.symm, hc, ?_⟩
        intro i hki hik
        omega

/-- C8, witness: with previous index 3 and draw stream 3, 5, 5, ... the
loop re-rolls once and lights index 5 ≠ 3. -/
theorem C8_witness :
    randomRoll (fun k => if k = 0 then 3 else 5) 3 0 5 = some 5 ∧
    (((5 : Nat) : Int) ≠ 3 ∧
      ∃ j, 0 ≤ j ∧ 5 = (fun k => if k = 0 then 3 else 5) j ∧
        (((fun k => if k = 0 then 3 else 5) j : Nat) : Int) ≠ 3 ∧
        ∀ i, 0 ≤ i → i < j →
          (((fun k => if k = 0 then 3 else 5) i : Nat) : Int) = 3) := by
  have h : randomRoll (fun k => if k = 0 then 3 else 5) 3 0 5 = some 5 := by decide
  exact ⟨h, C8_randomBlink (fun k => if k = 0 then 3 else 5) 3 0 5 5 h⟩

theorem hbPressStart_classStatics (now : Nat) (pressed : Bool) (s : HBState) :
    (hbPressStart now pressed s).buttonWasPressed = s.buttonWasPressed ∧
    (hbPressStart now pressed s).lastDebounceTime = s.lastDebounceTime ∧
    (hbPressStart now pressed s).lastButtonState = s.lastButtonState ∧
    (hbPressStart now pressed s).sleepTriggered = s.sleepTriggered := by
  simp only [hbPressStart]
  split_ifs <;> simp

theorem hbHold_classStatics (now : Nat) (pressed : Bool) (s : HBState) :
    (hbHold now pressed s).buttonWasPressed = s.buttonWasPressed ∧
    (hbHold now pressed s).lastDebounceTime = s.lastDebounceTime ∧
    (hbHold now pressed s).lastButtonState = s.lastButtonState ∧
    (hbHold now pressed s).sleepTriggered = s.sleepTriggered := by
  simp only [hbHold]
  split_ifs <;> simp

theorem hbRelease_classStatics (now : Nat) (pressed : Bool) (s : HBState) :
    (hbRelease now pressed s).buttonWasPressed = s.buttonWasPressed ∧
    (hbRelease now pressed s).lastDebounceTime = s.lastDebounceTime ∧
    (hbRelease now pressed s).lastButtonState = s.lastButtonState ∧
    (hbRelease now pressed s).sleepTriggered = s.sleepTriggered := by
  simp only [hbRelease]
  split_ifs <;> simp

theorem handleButton_classStatics (now : Nat) (pressed : Bool) (s : HBState) :
    (handleButton now pressed s).buttonWasPressed = s.buttonWasPressed ∧
    (handleButton now pressed s).lastDebounceTime = s.lastDebounceTime ∧
    (handleButton now pressed s).lastButtonState = s.lastButtonState ∧
    (handleButton now pressed s).sleepTriggered = s.sleepTriggered := by
  simp only [handleButton]
  split_ifs <;>
    simp [hbRelease_classStatics, hbHold_classStatics, hbPressStart_classStatics]

/-- C9: `handleButton` resolves the four debounce statics to its
function-local copies, so it never modifies the class-level static members
`buttonWasPressed`, `lastDebounceTime`, `lastButtonState`,
`sleepTriggered`; over every run of raw button samples they retain their
constructor-initialized values `false, 0, true, false`. -/
theorem C9_shadowedStatics :
    (∀ (now : Nat) (pressed : Bool) (s : HBState),
      (handleButton now pressed s).buttonWasPressed = s.buttonWasPressed ∧
      (handleButton now pressed s).lastDebounceTime = s.lastDebounceTime ∧
      (handleButton now pressed s).lastButtonState = s.lastButtonState ∧
      (handleButton now pressed s).sleepTriggered = s.sleepTriggered) ∧
    (∀ inputs : List (Nat × Bool),
      (hbRun inputs initHBState).buttonWasPressed = false ∧
      (hbRun inputs initHBState).lastDebounceTime = 0 ∧
      (hbRun inputs initHBState).lastButtonState = true ∧
      (hbRun inputs initHBState).sleepTriggered = false) := by
  refine ⟨handleButton_classStatics, ?_⟩
  have hrun : ∀ (inputs : List (Nat × Bool)) (s : HBState),
      (hbRun inputs s).buttonWasPressed = s.buttonWasPressed ∧
      (hbRun inputs s).lastDebounceTime = s.lastDebounceTime ∧
      (hbRun inputs s).lastButtonState = s.lastButtonState ∧
      (hbRun inputs s).sleepTriggered = s.sleepTriggered := by
    intro inputs
    induction inputs with
    | nil => intro s; simp [hbRun]
    | cons p rest ih =>
        intro s
        have h1 := handleButton_classStatics p.1 p.2 s
        have h2 := ih (handleButton p.1 p.2 s)
        simp only [hbRun, List.foldl_cons] at h2 ⊢
        exact ⟨h2.1.trans h1.1, h2.2.1.trans h1.2.1, h2.2.2.1.trans h1.2.2.1,
          h2.2.2.2.trans h1.2.2.2⟩
  intro inputs
  exact hrun inputs initHBState

/-- C10: the quick-press advance always lands strictly below `COLOR_COUNT`
while `WLED_MODE` lies above it, no button event can turn
`wledControlEnabled` on, under button-only operation from the initial state
neither `currentColor` nor `lastColor` ever equals `WLED_MODE` (so the
WLED-enable branch of the quick-press handler is unreachable from button
input), and a JSON state update can set `currentColor = WLED_MODE`. -/
theorem C10_wledUnreachable :
    (∀ c : Nat, colorAdvance c < COLOR_COUNT) ∧
    COLOR_COUNT < WLED_MODE ∧
    (∀ (e : LEDEvent) (s : LEDState), isButtonEvent e = true →
      (ledStep e s).wledControlEnabled = true → s.wledControlEnabled = true) ∧
    (∀ es : List LEDEvent, (∀ e ∈ es, isButtonEvent e = true) →
      (ledRun es initLEDState).currentColor ≠ WLED_MODE ∧
      (ledRun es initLEDState).lastColor ≠ WLED_MODE) ∧
    (ledStep (LEDEvent.json none (some WLED_MODE) none none none)
      initLEDState).currentColor = WLED_MODE := by
  have hne := colorAdvance_ne_wled
  have hlt := colorAdvance_lt
  have hnoenable : ∀ (e : LEDEvent) (s : LEDState), isButtonEvent e = true →
      (ledStep e s).wledControlEnabled = true → s.wledControlEnabled = true := by
    intro e s hbe hw
    cases e with
    | press d =>
        simp only [ledStep, handleButtonPress, enterBrightnessSelection,
          sleepTransition] at hw
        split_ifs at hw <;> simp_all
    | sleepHoldEv => simpa [ledStep, sleepTransition] using hw
    | brightQuick =>
        simp only [ledStep] at hw
        split_ifs at hw <;> simp_all [cycleBrightness]
    | brightLong =>
        simp only [ledStep] at hw
        split_ifs at hw <;> simp_all
    | json m c p a b => simp [isButtonEvent] at hbe
  have hpres : ∀ (e : LEDEvent) (s : LEDState), isButtonEvent e = true →
      s.currentColor < COLOR_COUNT → s.lastColor < COLOR_COUNT →
      (ledStep e s).currentColor < COLOR_COUNT ∧
      (ledStep e s).lastColor < COLOR_COUNT := by
    intro e s hbe h1 h2
    cases e with
    | press d =>
        simp only [ledStep, handleButtonPress, enterBrightnessSelection, sleepTransition]
        split_ifs <;> simp_all
    | sleepHoldEv => simp_all [ledStep, sleepTransition]
    | brightQuick =>
        simp only [ledStep]
        split_ifs <;> simp_all [cycleBrightness]
    | brightLong =>
        simp only [ledStep]
        split_ifs <;> simp_all
    | json m c p a b => simp [isButtonEvent] at hbe
  have hinv : ∀ es : List LEDEvent, (∀ e ∈ es, isButtonEvent e = true) →
      ∀ s : LEDState, s.currentColor < COLOR_COUNT → s.lastColor < COLOR_COUNT →
      (ledRun es s).currentColor < COLOR_COUNT ∧
      (ledRun es s).lastColor < COLOR_COUNT := by
    intro es
    induction es with
    | nil => intro _ s h1 h2; simpa [ledRun] using ⟨h1, h2⟩
    | cons e rest ih =>
        intro hall s h1 h2
        have hbe := hall e (List.mem_cons_self _ _)
        have hstep := hpres e s hbe h1 h2
        have hall2 : ∀ x ∈ rest, isButtonEvent x = true :=
          fun x hx => hall x (List.mem_cons_of_mem _ hx)
        simpa [ledRun] using ih hall2 (ledStep e s) hstep.1 hstep.2
  refine ⟨hlt, by decide, hnoenable, ?_, by decide⟩
  intro es hall
  obtain ⟨Ha, Hb⟩ := hinv es hall initLEDState (by decide) (by decide)
  constructor
  · intro hco
    rw [hco] at Ha
    simp only [COLOR_COUNT, WLED_MODE] at Ha
    omega
  · intro hco
    rw [hco] at Hb
    simp only [COLOR_COUNT, WLED_MODE] at Hb
    omega

/-- C10, witness: a sleep-hold event with WLED control already on keeps it
on (button events never enable it from off), a concrete button-only run
keeps both color fields away from `WLED_MODE`, and the JSON path reaches
it. -/
theorem C10_witness :
    isButtonEvent LEDEvent.sleepHoldEv = true ∧
    (ledStep LEDEvent.sleepHoldEv
      { initLEDState with wledControlEnabled := true }).wledControlEnabled = true ∧
    ({ initLEDState with wledControlEnabled := true } : LEDState).wledControlEnabled = true ∧
    (∀ e ∈ [LEDEvent.press 0, LEDEvent.press 1500], isButtonEvent e = true) ∧
    ((ledRun [LEDEvent.press 0, LEDEvent.press 1500] initLEDState).currentColor ≠ WLED_MODE ∧
      (ledRun [LEDEvent.press 0, LEDEvent.press 1500] initLEDState).lastColor ≠ WLED_MODE) := by
  have hall : ∀ e ∈ [LEDEvent.press 0, LEDEvent.press 1500], isButtonEvent e = true := by
    decide
  exact ⟨by decide, by decide,
    C10_wledUnreachable.2.2.1 LEDEvent.sleepHoldEv _ (by decide) (by decide),
    hall, C10_wledUnreachable.2.2.2.1 _ hall⟩
